import Mathlib

/-!
Shallow embedding of `src/main.rs` (ESP32 Wi-Fi connectivity demo).

The program is a single linear control flow: bring-up, Wi-Fi association
(configure, start, connect, wait for IP), SNTP time synchronization, then an
infinite reporting loop (sleep except on the first iteration, read IP info,
log heap counters, one HTTPS GET whose transport failure is logged and
swallowed).  External collaborators (Wi-Fi driver, SNTP service, HTTP client,
heap queries) are modelled as an environment supplying the result of each
call; the embedding records, per call site of the source, which log events
are emitted and whether an error is propagated (Rust `?`) or swallowed
(`continue`).
-/

/-- Errors flowing through the program.  `msg` is `anyhow::Error::msg` (used
for the SSID/password conversion failures), `esp` an `EspError` from the
platform bindings, `reqwest` a transport error of the HTTP client. -/
inductive Err where
  | msg (s : String)
  | esp (code : Int)
  | reqwest (s : String)
  deriving DecidableEq, Repr

/-- SNTP synchronization status (`esp_idf_svc::sntp::SyncStatus`). -/
inductive SyncStatus where
  | reset
  | inProgress
  | completed
  deriving DecidableEq, Repr

/-- Observable log/timer events of one reporting-loop iteration.  `sleep` is a
`tokio::time::sleep` call with its duration in seconds; the `log*` events are
the `info!` lines carrying data. -/
inductive Event where
  | sleep (secs : Nat)
  | logIpInfo (info : String)
  | logTotalHeap (n : Nat)
  | logFreeHeap (n : Nat)
  | logMinFreeHeap (n : Nat)
  | logUsedHeap (n : Nat)
  | logNetError (e : Err)
  | logPublicIp (s : String)
  deriving DecidableEq, Repr

/-- Rust `char::is_whitespace`: membership in the Unicode `White_Space`
property, written out as the code-point list of that property. -/
def rustIsWhitespace (c : Char) : Bool :=
  let n := c.toNat
  (9 ≤ n && n ≤ 13) || n == 32 || n == 133 || n == 160 || n == 5760 ||
    (8192 ≤ n && n ≤ 8202) || n == 8232 || n == 8233 || n == 8239 ||
    n == 8287 || n == 12288

/-- Rust `str::trim`: remove leading and trailing whitespace characters. -/
def rustTrim (s : String) : String :=
  ⟨((s.data.dropWhile rustIsWhitespace).reverse.dropWhile rustIsWhitespace).reverse⟩

/-- Modulus of the 32-bit unsigned integers used by the heap counters. -/
def u32Mod : Nat := 4294967296

/-- Wrapping 32-bit unsigned subtraction: the release-profile semantics of
Rust `u32` subtraction `a - b` in `print_memory_info`. -/
def u32Sub (a b : Nat) : Nat := (a % u32Mod + (u32Mod - b % u32Mod)) % u32Mod

/-- One read-only snapshot of the heap counters, as returned by
`heap_caps_get_total_size`, `esp_get_free_heap_size` and
`esp_get_minimum_free_heap_size` (all 32-bit unsigned values). -/
structure HeapSnapshot where
  total : Nat
  free : Nat
  minFree : Nat
  deriving DecidableEq, Repr

/-- Embedding of `print_memory_info`: logs total, free, minimum-ever free, and
the used heap computed by the unchecked `u32` subtraction `total - free`.
It has no error path: it always emits exactly these four log events. -/
def print_memory_info (h : HeapSnapshot) : List Event :=
  [Event.logTotalHeap h.total, Event.logFreeHeap h.free,
   Event.logMinFreeHeap h.minFree, Event.logUsedHeap (u32Sub h.total h.free)]

/-- Environment of one reporting-loop iteration: the result of
`wifi.wifi().sta_netif().get_ip_info()`, the heap counters read by
`print_memory_info`, and the HTTP call: the outer `Except` is the result of
`reqwest::get(..)`, the inner one the result of `resp.text()`. -/
structure IterEnv where
  ipInfo : Except Err String
  heap : HeapSnapshot
  httpResponse : Except Err (Except Err String)
  deriving Repr

/-- One iteration of the reporting loop in `async_main`.  `first` is the
source's `first` flag: the sleep is skipped exactly on the first iteration.
Returns the emitted events and `some e` when an error is propagated out of
the loop by `?` (`get_ip_info()?`, `resp.text().await?`); a transport failure
of `reqwest::get` is logged and swallowed by `continue` (result `none`). -/
def loopIter (first : Bool) (env : IterEnv) : List Event × Option Err :=
  let sleepEvents := if first then [] else [Event.sleep 5]
  match env.ipInfo with
  | .error e => (sleepEvents, some e)
  | .ok info =>
    let evts := sleepEvents ++ Event.logIpInfo info :: print_memory_info env.heap
    match env.httpResponse with
    | .error e => (evts ++ [Event.logNetError e], none)
    | .ok (.error e) => (evts, some e)
    | .ok (.ok data) => (evts ++ [Event.logPublicIp (rustTrim data)], none)

/-- The reporting loop, driven by a finite list of per-iteration environments
(the loop itself is infinite; an exhausted list means the program is still
looping).  An iteration that propagates an error stops the loop with that
error; otherwise the next iteration runs with `first = false`. -/
def runLoop (envs : List IterEnv) (first : Bool) : List Event × Option Err :=
  match envs with
  | [] => ([], none)
  | env :: rest =>
    match loopIter first env with
    | (evts, some e) => (evts, some e)
    | (evts, none) =>
      let r := runLoop rest false
      (evts ++ r.1, r.2)

/-- Modelled from the spec: the fallible conversion of a Rust string into the
platform's fixed-length identifier buffer (`ssid.try_into()` /
`password.try_into()` land in fixed-capacity strings of the external
`embedded-svc` crate, which is not part of `src/`).  The spec says the
conversion "fails with a configuration error if either string exceeds the
platform's fixed-length identifier buffer"; `cap` is that buffer's byte
capacity. -/
def try_into_heapless (cap : Nat) (s : String) : Option String :=
  if s.utf8ByteSize ≤ cap then some s else none

/-- The compiled-in network name (`SSID` constant of the source). -/
def SSID : String := "NETGEAR13"

/-- The compiled-in passphrase (`PASSWORD` constant of the source). -/
def PASSWORD : String := "royalphoenix978"

/-- The four Wi-Fi association transitions attempted by `async_main`, in
source order. -/
inductive Step where
  | configure
  | start
  | connect
  | waitIp
  deriving DecidableEq, Repr

/-- Results of the external Wi-Fi driver calls used during association:
`wifi.set_configuration`, `wifi.start()`, `wifi.connect()`,
`wifi.wait_netif_up()`. -/
structure WifiEnv where
  setConfigResult : Except Err Unit
  startResult : Except Err Unit
  connectResult : Except Err Unit
  waitNetifResult : Except Err Unit
  deriving Repr

/-- Embedding of the association sequence of `async_main` (configuration
build through `wait_netif_up`).  Builds the client configuration from the
network name and passphrase (each converted into the platform's fixed-length
buffer of capacity `ssidCap` resp. `passCap`; a failed conversion becomes
the `anyhow` message of the source), then attempts configure, start, connect,
wait-for-IP in order, recording each attempted transition and stopping at
the first failure, which is propagated (`?`). -/
def networkAssociation (ssidCap passCap : Nat) (ssid pass : String)
    (env : WifiEnv) : List Step × Option Err :=
  match try_into_heapless ssidCap ssid with
  | none => ([], some (Err.msg "Error in SSID"))
  | some _ =>
  match try_into_heapless passCap pass with
  | none => ([], some (Err.msg "Error in Password"))
  | some _ =>
  match env.setConfigResult with
  | .error e => ([Step.configure], some e)
  | .ok _ =>
  match env.startResult with
  | .error e => ([Step.configure, Step.start], some e)
  | .ok _ =>
  match env.connectResult with
  | .error e => ([Step.configure, Step.start, Step.connect], some e)
  | .ok _ =>
  match env.waitNetifResult with
  | .error e => ([Step.configure, Step.start, Step.connect, Step.waitIp], some e)
  | .ok _ => ([Step.configure, Step.start, Step.connect, Step.waitIp], none)

/-- Events of the time-synchronization stage: a non-blocking status check
(`sntp.get_sync_status()`) and a cooperative sleep with its duration in
seconds. -/
inductive TimeEv where
  | check (s : SyncStatus)
  | sleep (secs : Nat)
  deriving DecidableEq, Repr

/-- The polling loop of `initialize_time`: while the observed status is not
`Completed`, sleep one second and check again.  `status k` is the value the
k-th call of `get_sync_status` would observe; `fuel` bounds how many checks
the model performs (the source loop is unbounded).  Returns the event trace
and whether the loop returned (observed `Completed`) within the fuel. -/
def initTimeLoop : Nat → (Nat → SyncStatus) → Nat → List TimeEv × Bool
  | 0, _, _ => ([], false)
  | fuel + 1, status, i =>
    if status i = SyncStatus.completed then
      ([TimeEv.check (status i)], true)
    else
      let r := initTimeLoop fuel status (i + 1)
      (TimeEv.check (status i) :: TimeEv.sleep 1 :: r.1, r.2)

/-- Embedding of `initialize_time`: create the SNTP client
(`EspSntp::new_default()?`, result supplied by `newResult`), then poll until
`Completed`.  `.ok true` means the stage returned, `.ok false` that it is
still suspended after `fuel` checks. -/
def initialize_time (newResult : Except Err Unit) (fuel : Nat)
    (status : Nat → SyncStatus) : Except Err Bool :=
  match newResult with
  | .error e => .error e
  | .ok _ => .ok (initTimeLoop fuel status 0).2

/-- Environment of the whole of `async_main`: results of the fallible
bring-up calls (`Peripherals::take`, `EspSystemEventLoop::take`,
`EspDefaultNvsPartition::take`, `EspTaskTimerService::new`, `EspWifi::new`,
`AsyncWifi::wrap`), the Wi-Fi driver results, the SNTP client creation
result and status stream, and the reporting-loop environments. -/
structure ProgramEnv where
  peripherals : Except Err Unit
  sysloop : Except Err Unit
  nvs : Except Err Unit
  timerSvc : Except Err Unit
  wifiNew : Except Err Unit
  wifiWrap : Except Err Unit
  wifi : WifiEnv
  sntpNew : Except Err Unit
  sntpStatus : Nat → SyncStatus
  sntpFuel : Nat
  loopEnvs : List IterEnv

/-- Embedding of `async_main`'s control flow, returning `some e` exactly when
the program terminates with error `e` propagated to `main` (any `?` failure
during bring-up, association, SNTP creation, or inside the loop at the two
fatal call sites), and `none` while it is still running (blocked in the
time-sync poll or still iterating the reporting loop). -/
def async_main (ssidCap passCap : Nat) (env : ProgramEnv) : Option Err :=
  match env.peripherals with
  | .error e => some e
  | .ok _ =>
  match env.sysloop with
  | .error e => some e
  | .ok _ =>
  match env.nvs with
  | .error e => some e
  | .ok _ =>
  match env.timerSvc with
  | .error e => some e
  | .ok _ =>
  match env.wifiNew with
  | .error e => some e
  | .ok _ =>
  match env.wifiWrap with
  | .error e => some e
  | .ok _ =>
  match networkAssociation ssidCap passCap SSID PASSWORD env.wifi with
  | (_, some e) => some e
  | (_, none) =>
  match initialize_time env.sntpNew env.sntpFuel env.sntpStatus with
  | .error e => some e
  | .ok false => none
  | .ok true => (runLoop env.loopEnvs true).2

/-- Checks that a time-sync trace consists of status checks separated by
exactly one one-second sleep each (so consecutive polls are at least one
second apart). -/
def checksSeparated : List TimeEv → Bool
  | [] => true
  | [TimeEv.check _] => true
  | TimeEv.check _ :: TimeEv.sleep 1 :: rest => checksSeparated rest
  | _ => false

/-- Modelled from the spec: byte capacity of the platform's fixed-length
network-name buffer (the fixed-capacity string of the external
`embedded-svc` crate's client configuration, not part of `src/`). -/
def SSID_CAP : Nat := 32

/-- Modelled from the spec: byte capacity of the platform's fixed-length
passphrase buffer (see `SSID_CAP`). -/
def PASSWORD_CAP : Nat := 64

/-- Sample heap snapshot used by the concrete witnesses. -/
def heapSample : HeapSnapshot := ⟨320000, 210000, 180000⟩

/-- Sample iteration environment: every external call succeeds. -/
def iterEnvOk : IterEnv :=
  ⟨.ok "10.0.0.5", heapSample, .ok (.ok "  203.0.113.7\n")⟩

/-- Sample iteration environment: the HTTPS GET fails at transport level. -/
def iterEnvHttpErr : IterEnv :=
  ⟨.ok "10.0.0.5", heapSample, .error (Err.reqwest "dns failure")⟩

/-- Sample iteration environment: the interface IP query fails. -/
def iterEnvIpErr : IterEnv :=
  ⟨.error (Err.esp 263), heapSample, .ok (.ok "203.0.113.7")⟩

/-- Sample iteration environment: the GET succeeds but reading the body
fails. -/
def iterEnvBodyErr : IterEnv :=
  ⟨.ok "10.0.0.5", heapSample, .ok (.error (Err.reqwest "body read"))⟩

/-- Sample Wi-Fi driver environment: every transition succeeds. -/
def wifiAllOk : WifiEnv := ⟨.ok (), .ok (), .ok (), .ok ()⟩

/-- Sample Wi-Fi driver environment: the connect transition fails. -/
def wifiConnectFail : WifiEnv := ⟨.ok (), .ok (), .error (Err.esp 1), .ok ()⟩

/-- Sample SNTP status stream that reports `Completed` immediately. -/
def statusCompleted : Nat → SyncStatus := fun _ => SyncStatus.completed

/-- Sample SNTP status stream that reports `Completed` from the third check
on. -/
def statusAfterTwo : Nat → SyncStatus :=
  fun j => if j < 2 then SyncStatus.inProgress else SyncStatus.completed

/-- Sample whole-program environment with successful bring-up, the given
Wi-Fi driver results, immediate time sync, and the given loop
environments. -/
def programEnvWith (w : WifiEnv) (envs : List IterEnv) : ProgramEnv :=
  ⟨.ok (), .ok (), .ok (), .ok (), .ok (), .ok (), w, .ok (),
   statusCompleted, 1, envs⟩

/-- A 40-byte network name, exceeding the 32-byte buffer capacity; used by
the concrete witnesses for the over-length case. -/
def longName : String := "0123456789012345678901234567890123456789"

/-- C1: if the outbound HTTPS GET to the fixed endpoint fails with a
transport/request error in an iteration of the reporting loop (reached after
a successful IP query), the error is logged, the iteration propagates no
error, and the loop proceeds to the remaining iterations exactly as if the
failing iteration had succeeded — the failure never escapes the loop and the
program does not terminate because of it. -/
theorem http_failure_swallowed (first : Bool) (env : IterEnv) (info : String)
    (e : Err) (rest : List IterEnv)
    (hip : env.ipInfo = .ok info) (hhttp : env.httpResponse = .error e) :
    (loopIter first env).2 = none ∧
    Event.logNetError e ∈ (loopIter first env).1 ∧
    runLoop (env :: rest) first =
      ((loopIter first env).1 ++ (runLoop rest false).1,
       (runLoop rest false).2) := by
  refine ⟨?_, ?_, ?_⟩
  · simp [loopIter, hip, hhttp]
  · simp [loopIter, hip, hhttp]
  · simp [runLoop, loopIter, hip, hhttp]

/-- Witness for C1: concrete iteration whose HTTPS GET fails with a DNS
error; the loop swallows it and continues. -/
theorem http_failure_swallowed_witness :
    iterEnvHttpErr.ipInfo = .ok "10.0.0.5" ∧
    iterEnvHttpErr.httpResponse = .error (Err.reqwest "dns failure") ∧
    ((loopIter true iterEnvHttpErr).2 = none ∧
     Event.logNetError (Err.reqwest "dns failure") ∈ (loopIter true iterEnvHttpErr).1 ∧
     runLoop (iterEnvHttpErr :: [iterEnvOk]) true =
       ((loopIter true iterEnvHttpErr).1 ++ (runLoop [iterEnvOk] false).1,
        (runLoop [iterEnvOk] false).2)) :=
  ⟨rfl, rfl,
   http_failure_swallowed true iterEnvHttpErr "10.0.0.5"
     (Err.reqwest "dns failure") [iterEnvOk] rfl rfl⟩

/-- C4: the first iteration of the reporting loop emits no sleep event at
all; an iteration entered with the first-iteration flag cleared begins with
a five-second sleep before any output; and after a non-fatal first iteration
the loop runs all later iterations with the flag cleared. -/
theorem first_iteration_skips_sleep (env env2 : IterEnv) (envs : List IterEnv)
    (h : (loopIter true env).2 = none) :
    (∀ d, Event.sleep d ∉ (loopIter true env).1) ∧
    (loopIter false env2).1.head? = some (Event.sleep 5) ∧
    runLoop (env :: env2 :: envs) true =
      ((loopIter true env).1 ++ (runLoop (env2 :: envs) false).1,
       (runLoop (env2 :: envs) false).2) := by
  refine ⟨?_, ?_, ?_⟩
  · intro d
    rcases hip : env.ipInfo with e | info
    · simp [loopIter, hip]
    · rcases hh : env.httpResponse with e | b
      · simp [loopIter, hip, hh, print_memory_info]
      · rcases b with e | s
        · simp [loopIter, hip, hh, print_memory_info]
        · simp [loopIter, hip, hh, print_memory_info]
  · rcases hip : env2.ipInfo with e | info
    · simp [loopIter, hip]
    · rcases hh : env2.httpResponse with e | b
      · simp [loopIter, hip, hh]
      · rcases b with e | s
        · simp [loopIter, hip, hh]
        · simp [loopIter, hip, hh]
  · rcases hl : loopIter true env with ⟨evts, r⟩
    rw [hl] at h
    simp only at h
    subst h
    simp [runLoop, hl]

/-- Witness for C4: concrete two-iteration run in which the first iteration
succeeds; the first sleeps never, the second starts with a 5-second sleep. -/
theorem first_iteration_skips_sleep_witness :
    (loopIter true iterEnvOk).2 = none ∧
    ((∀ d, Event.sleep d ∉ (loopIter true iterEnvOk).1) ∧
     (loopIter false iterEnvOk).1.head? = some (Event.sleep 5) ∧
     runLoop (iterEnvOk :: iterEnvOk :: []) true =
       ((loopIter true iterEnvOk).1 ++ (runLoop (iterEnvOk :: []) false).1,
        (runLoop (iterEnvOk :: []) false).2)) :=
  ⟨by decide, first_iteration_skips_sleep iterEnvOk iterEnvOk [] (by decide)⟩

/-- C6: when the HTTPS GET succeeds and its body text is read, the iteration
propagates no error and logs the body with surrounding whitespace trimmed —
whatever the body's content, with no distinct error for an unparsable body;
in particular a body of two spaces, the address, and a newline is logged as
the bare address. -/
theorem public_ip_trimmed (first : Bool) (env : IterEnv) (info body : String)
    (hip : env.ipInfo = .ok info) (hhttp : env.httpResponse = .ok (.ok body)) :
    (loopIter first env).2 = none ∧
    Event.logPublicIp (rustTrim body) ∈ (loopIter first env).1 ∧
    rustTrim "  203.0.113.7\n" = "203.0.113.7" := by
  refine ⟨?_, ?_, by decide⟩
  · simp [loopIter, hip, hhttp]
  · simp [loopIter, hip, hhttp]

/-- Witness for C6: concrete iteration whose response body is the claim's
example; the logged public IP is the trimmed address. -/
theorem public_ip_trimmed_witness :
    iterEnvOk.ipInfo = .ok "10.0.0.5" ∧
    iterEnvOk.httpResponse = .ok (.ok "  203.0.113.7\n") ∧
    ((loopIter true iterEnvOk).2 = none ∧
     Event.logPublicIp (rustTrim "  203.0.113.7\n") ∈ (loopIter true iterEnvOk).1 ∧
     rustTrim "  203.0.113.7\n" = "203.0.113.7") :=
  ⟨rfl, rfl, public_ip_trimmed true iterEnvOk "10.0.0.5" "  203.0.113.7\n" rfl rfl⟩

/-- C9: if the HTTPS GET succeeds but reading the response body text fails,
the error is propagated out of the reporting loop (so the program
terminates); it is not logged as a network error and the remaining
iterations never run — only the initial request failure is handled
locally. -/
theorem body_read_failure_fatal (first : Bool) (env : IterEnv) (info : String)
    (e : Err) (rest : List IterEnv)
    (hip : env.ipInfo = .ok info) (hhttp : env.httpResponse = .ok (.error e)) :
    (loopIter first env).2 = some e ∧
    Event.logNetError e ∉ (loopIter first env).1 ∧
    runLoop (env :: rest) first = ((loopIter first env).1, some e) := by
  refine ⟨?_, ?_, ?_⟩
  · simp [loopIter, hip, hhttp]
  · cases first <;> simp [loopIter, hip, hhttp, print_memory_info]
  · simp [runLoop, loopIter, hip, hhttp]

/-- Witness for C9: concrete iteration whose body read fails; the error is
propagated and the following iteration never runs. -/
theorem body_read_failure_fatal_witness :
    iterEnvBodyErr.ipInfo = .ok "10.0.0.5" ∧
    iterEnvBodyErr.httpResponse = .ok (.error (Err.reqwest "body read")) ∧
    ((loopIter true iterEnvBodyErr).2 = some (Err.reqwest "body read") ∧
     Event.logNetError (Err.reqwest "body read") ∉ (loopIter true iterEnvBodyErr).1 ∧
     runLoop (iterEnvBodyErr :: [iterEnvOk]) true =
       ((loopIter true iterEnvBodyErr).1, some (Err.reqwest "body read"))) :=
  ⟨rfl, rfl,
   body_read_failure_fatal true iterEnvBodyErr "10.0.0.5"
     (Err.reqwest "body read") [iterEnvOk] rfl rfl⟩

/-- C2: with a network name and passphrase within the buffer limits, the
association attempts configure, start, connect, wait-for-IP in exactly that
order — the attempted transitions are always an initial segment of that
sequence, all four run exactly when no transition fails, a failure at any
transition stops the sequence there with the error propagated, and a
propagated association error surfaces as the program's terminating error in
`async_main`. -/
theorem association_order_and_fatality (ssidCap passCap : Nat)
    (ssid pass : String) (env : WifiEnv) (e : Err) (penv : ProgramEnv)
    (hs : ssid.utf8ByteSize ≤ ssidCap) (hp : pass.utf8ByteSize ≤ passCap) :
    ((networkAssociation ssidCap passCap ssid pass env).1 =
        List.take (networkAssociation ssidCap passCap ssid pass env).1.length
          [Step.configure, Step.start, Step.connect, Step.waitIp]) ∧
    ((networkAssociation ssidCap passCap ssid pass env).2 = none →
        (networkAssociation ssidCap passCap ssid pass env).1 =
          [Step.configure, Step.start, Step.connect, Step.waitIp]) ∧
    (env.setConfigResult = .error e →
        networkAssociation ssidCap passCap ssid pass env =
          ([Step.configure], some e)) ∧
    (env.setConfigResult = .ok () → env.startResult = .error e →
        networkAssociation ssidCap passCap ssid pass env =
          ([Step.configure, Step.start], some e)) ∧
    (env.setConfigResult = .ok () → env.startResult = .ok () →
        env.connectResult = .error e →
        networkAssociation ssidCap passCap ssid pass env =
          ([Step.configure, Step.start, Step.connect], some e)) ∧
    (env.setConfigResult = .ok () → env.startResult = .ok () →
        env.connectResult = .ok () → env.waitNetifResult = .error e →
        networkAssociation ssidCap passCap ssid pass env =
          ([Step.configure, Step.start, Step.connect, Step.waitIp], some e)) ∧
    (penv.peripherals = .ok () → penv.sysloop = .ok () → penv.nvs = .ok () →
        penv.timerSvc = .ok () → penv.wifiNew = .ok () →
        penv.wifiWrap = .ok () →
        (networkAssociation ssidCap passCap SSID PASSWORD penv.wifi).2 = some e →
        async_main ssidCap passCap penv = some e) := by
  refine ⟨?_, ?_, ?_, ?_, ?_, ?_, ?_⟩
  · rcases hsc : env.setConfigResult with e1 | u1 <;>
      rcases hst : env.startResult with e2 | u2 <;>
      rcases hco : env.connectResult with e3 | u3 <;>
      rcases hwa : env.waitNetifResult with e4 | u4 <;>
      simp [networkAssociation, try_into_heapless, hs, hp, hsc, hst, hco, hwa]
  · rcases hsc : env.setConfigResult with e1 | u1 <;>
      rcases hst : env.startResult with e2 | u2 <;>
      rcases hco : env.connectResult with e3 | u3 <;>
      rcases hwa : env.waitNetifResult with e4 | u4 <;>
      simp [networkAssociation, try_into_heapless, hs, hp, hsc, hst, hco, hwa]
  · intro hsc
    simp [networkAssociation, try_into_heapless, hs, hp, hsc]
  · intro hsc hst
    simp [networkAssociation, try_into_heapless, hs, hp, hsc, hst]
  · intro hsc hst hco
    simp [networkAssociation, try_into_heapless, hs, hp, hsc, hst, hco]
  · intro hsc hst hco hwa
    simp [networkAssociation, try_into_heapless, hs, hp, hsc, hst, hco, hwa]
  · intro h1 h2 h3 h4 h5 h6 h7
    rcases hna : networkAssociation ssidCap passCap SSID PASSWORD penv.wifi
      with ⟨steps, r⟩
    rw [hna] at h7
    simp only at h7
    subst h7
    simp [async_main, h1, h2, h3, h4, h5, h6, hna]

/-- Witness for C2: with the compiled-in credentials and a driver whose
connect transition fails, the association stops after configure, start,
connect with that error, and `async_main` terminates with it. -/
theorem association_order_and_fatality_witness :
    SSID.utf8ByteSize ≤ SSID_CAP ∧ PASSWORD.utf8ByteSize ≤ PASSWORD_CAP ∧
    networkAssociation SSID_CAP PASSWORD_CAP SSID PASSWORD wifiConnectFail =
      ([Step.configure, Step.start, Step.connect], some (Err.esp 1)) ∧
    async_main SSID_CAP PASSWORD_CAP (programEnvWith wifiConnectFail []) =
      some (Err.esp 1) :=
  ⟨by decide, by decide,
   (association_order_and_fatality SSID_CAP PASSWORD_CAP SSID PASSWORD
      wifiConnectFail (Err.esp 1) (programEnvWith wifiConnectFail [])
      (by decide) (by decide)).2.2.2.2.1 rfl rfl rfl,
   (association_order_and_fatality SSID_CAP PASSWORD_CAP SSID PASSWORD
      wifiConnectFail (Err.esp 1) (programEnvWith wifiConnectFail [])
      (by decide) (by decide)).2.2.2.2.2.2 rfl rfl rfl rfl rfl rfl (by decide)⟩

/-- C3: if both strings are within the buffer limits, building the client
configuration succeeds, and once the driver accepts it the configure
transition is attempted; if either string exceeds its limit, the association
fails with a configuration error before attempting any transition — in
particular no connect attempt is made. -/
theorem config_length_validation (ssidCap passCap : Nat) (ssid pass : String)
    (env : WifiEnv) :
    (ssid.utf8ByteSize ≤ ssidCap → pass.utf8ByteSize ≤ passCap →
       try_into_heapless ssidCap ssid = some ssid ∧
       try_into_heapless passCap pass = some pass ∧
       (env.setConfigResult = .ok () →
          Step.configure ∈ (networkAssociation ssidCap passCap ssid pass env).1)) ∧
    (ssidCap < ssid.utf8ByteSize ∨ passCap < pass.utf8ByteSize →
       (networkAssociation ssidCap passCap ssid pass env).1 = [] ∧
       Step.connect ∉ (networkAssociation ssidCap passCap ssid pass env).1 ∧
       ((networkAssociation ssidCap passCap ssid pass env).2 =
           some (Err.msg "Error in SSID") ∨
        (networkAssociation ssidCap passCap ssid pass env).2 =
           some (Err.msg "Error in Password"))) := by
  constructor
  · intro hs hp
    refine ⟨by simp [try_into_heapless, hs], by simp [try_into_heapless, hp], ?_⟩
    intro hsc
    rcases hst : env.startResult with e2 | u2 <;>
      rcases hco : env.connectResult with e3 | u3 <;>
      rcases hwa : env.waitNetifResult with e4 | u4 <;>
      simp [networkAssociation, try_into_heapless, hs, hp, hsc, hst, hco, hwa]
  · intro h
    by_cases hss : ssid.utf8ByteSize ≤ ssidCap
    · have hpp : ¬ pass.utf8ByteSize ≤ passCap := by omega
      simp [networkAssociation, try_into_heapless, hss, hpp]
    · simp [networkAssociation, try_into_heapless, hss]

/-- Witness for C3: the compiled-in credentials are within the 32/64-byte
limits and configuration building succeeds, while a 40-byte network name is
rejected with the configuration error before any transition is attempted. -/
theorem config_length_validation_witness :
    SSID.utf8ByteSize ≤ SSID_CAP ∧ PASSWORD.utf8ByteSize ≤ PASSWORD_CAP ∧
    SSID_CAP < longName.utf8ByteSize ∧
    try_into_heapless SSID_CAP SSID = some SSID ∧
    try_into_heapless PASSWORD_CAP PASSWORD = some PASSWORD ∧
    Step.configure ∈
      (networkAssociation SSID_CAP PASSWORD_CAP SSID PASSWORD wifiAllOk).1 ∧
    (networkAssociation SSID_CAP PASSWORD_CAP longName PASSWORD wifiAllOk).1 = [] ∧
    Step.connect ∉
      (networkAssociation SSID_CAP PASSWORD_CAP longName PASSWORD wifiAllOk).1 ∧
    ((networkAssociation SSID_CAP PASSWORD_CAP longName PASSWORD wifiAllOk).2 =
        some (Err.msg "Error in SSID") ∨
     (networkAssociation SSID_CAP PASSWORD_CAP longName PASSWORD wifiAllOk).2 =
        some (Err.msg "Error in Password")) :=
  ⟨by decide, by decide, by decide,
   ((config_length_validation SSID_CAP PASSWORD_CAP SSID PASSWORD wifiAllOk).1
      (by decide) (by decide)).1,
   ((config_length_validation SSID_CAP PASSWORD_CAP SSID PASSWORD wifiAllOk).1
      (by decide) (by decide)).2.1,
   ((config_length_validation SSID_CAP PASSWORD_CAP SSID PASSWORD wifiAllOk).1
      (by decide) (by decide)).2.2 rfl,
   ((config_length_validation SSID_CAP PASSWORD_CAP longName PASSWORD wifiAllOk).2
      (Or.inl (by decide))).1,
   ((config_length_validation SSID_CAP PASSWORD_CAP longName PASSWORD wifiAllOk).2
      (Or.inl (by decide))).2.1,
   ((config_length_validation SSID_CAP PASSWORD_CAP longName PASSWORD wifiAllOk).2
      (Or.inl (by decide))).2.2⟩

/-- C5: the time-sync poll loop returns successfully only if it has observed
the status `Completed` (that check appears in its trace); consecutive status
checks are separated by exactly one one-second sleep, so polling occurs no
more often than once per second; and if the status never becomes `Completed`
the loop never returns, however much fuel it is given — no timeout is
enforced. -/
theorem time_sync_polling (fuel : Nat) (status : Nat → SyncStatus) (i : Nat) :
    ((initTimeLoop fuel status i).2 = true →
        TimeEv.check SyncStatus.completed ∈ (initTimeLoop fuel status i).1) ∧
    checksSeparated (initTimeLoop fuel status i).1 = true ∧
    ((∀ j, status j ≠ SyncStatus.completed) →
        (initTimeLoop fuel status i).2 = false) := by
  induction fuel generalizing i with
  | zero => simp [initTimeLoop, checksSeparated]
  | succ n ih =>
    by_cases hc : status i = SyncStatus.completed
    · refine ⟨?_, ?_, ?_⟩
      · intro _
        simp [initTimeLoop, hc]
      · simp [initTimeLoop, hc, checksSeparated]
      · intro h
        exact absurd hc (h i)
    · refine ⟨?_, ?_, ?_⟩
      · intro h2
        have h2' : (initTimeLoop n status (i + 1)).2 = true := by
          simpa [initTimeLoop, hc] using h2
        have hm := (ih (i + 1)).1 h2'
        simp [initTimeLoop, hc]
        exact Or.inr hm
      · have hrest := (ih (i + 1)).2.1
        simp [initTimeLoop, hc, checksSeparated, hrest]
      · intro h
        have hrest := (ih (i + 1)).2.2 h
        simp [initTimeLoop, hc, hrest]

/-- Witness for C5: a status stream that completes on the third check; the
loop returns having observed `Completed`, with one-second sleeps between
checks. -/
theorem time_sync_polling_witness :
    TimeEv.check SyncStatus.completed ∈ (initTimeLoop 5 statusAfterTwo 0).1 ∧
    checksSeparated (initTimeLoop 5 statusAfterTwo 0).1 = true :=
  ⟨(time_sync_polling 5 statusAfterTwo 0).1 (by decide),
   (time_sync_polling 5 statusAfterTwo 0).2.1⟩

/-- C7: on a reporting-loop iteration whose IP query succeeds, the heap
snapshot logs exactly the four values total, free, minimum-ever free, and
used, with the logged used value equal to total minus free of the same
snapshot (given the snapshot is consistent, i.e. free does not exceed total
and total fits in 32 bits), and those four log events appear within the
iteration's output. -/
theorem heap_usage_identity (first : Bool) (env : IterEnv) (info : String)
    (hip : env.ipInfo = .ok info)
    (hle : env.heap.free ≤ env.heap.total) (hlt : env.heap.total < u32Mod) :
    print_memory_info env.heap =
      [Event.logTotalHeap env.heap.total, Event.logFreeHeap env.heap.free,
       Event.logMinFreeHeap env.heap.minFree,
       Event.logUsedHeap (env.heap.total - env.heap.free)] ∧
    ∃ pre post, (loopIter first env).1 =
      pre ++ print_memory_info env.heap ++ post := by
  have hsub : u32Sub env.heap.total env.heap.free =
      env.heap.total - env.heap.free := by
    unfold u32Sub u32Mod
    unfold u32Mod at hlt
    omega
  refine ⟨by simp [print_memory_info, hsub], ?_⟩
  rcases hh : env.httpResponse with e | b
  · exact ⟨(if first then [] else [Event.sleep 5]) ++ [Event.logIpInfo info],
      [Event.logNetError e], by simp [loopIter, hip, hh]⟩
  · rcases b with e | s
    · exact ⟨(if first then [] else [Event.sleep 5]) ++ [Event.logIpInfo info],
        [], by simp [loopIter, hip, hh]⟩
    · exact ⟨(if first then [] else [Event.sleep 5]) ++ [Event.logIpInfo info],
        [Event.logPublicIp (rustTrim s)], by simp [loopIter, hip, hh]⟩

/-- Witness for C7: the sample snapshot (total 320000, free 210000) logs
used = 110000 = total - free. -/
theorem heap_usage_identity_witness :
    iterEnvOk.ipInfo = .ok "10.0.0.5" ∧
    iterEnvOk.heap.free ≤ iterEnvOk.heap.total ∧
    iterEnvOk.heap.total < u32Mod ∧
    print_memory_info iterEnvOk.heap =
      [Event.logTotalHeap iterEnvOk.heap.total,
       Event.logFreeHeap iterEnvOk.heap.free,
       Event.logMinFreeHeap iterEnvOk.heap.minFree,
       Event.logUsedHeap (iterEnvOk.heap.total - iterEnvOk.heap.free)] :=
  ⟨rfl, by decide, by decide,
   (heap_usage_identity true iterEnvOk "10.0.0.5" rfl (by decide) (by decide)).1⟩

/-- C8: if the network interface's IP query fails in a reporting-loop
iteration, the error is propagated out of the loop: the iteration ends with
that error, no later iteration runs, and — with bring-up, association and
time sync successful — `async_main` terminates with that error, unlike the
locally-handled HTTPS request failure. -/
theorem ip_query_failure_fatal (first : Bool) (env : IterEnv) (e : Err)
    (rest : List IterEnv) (ssidCap passCap : Nat) (penv : ProgramEnv)
    (hip : env.ipInfo = .error e)
    (hper : penv.peripherals = .ok ()) (hsys : penv.sysloop = .ok ())
    (hnvs : penv.nvs = .ok ()) (htmr : penv.timerSvc = .ok ())
    (hnew : penv.wifiNew = .ok ()) (hwrap : penv.wifiWrap = .ok ())
    (hassoc : (networkAssociation ssidCap passCap SSID PASSWORD penv.wifi).2 = none)
    (hsntp : initialize_time penv.sntpNew penv.sntpFuel penv.sntpStatus = .ok true)
    (henvs : penv.loopEnvs = env :: rest) :
    (loopIter first env).2 = some e ∧
    runLoop (env :: rest) first = ((loopIter first env).1, some e) ∧
    async_main ssidCap passCap penv = some e := by
  refine ⟨by simp [loopIter, hip], by simp [runLoop, loopIter, hip], ?_⟩
  rcases hna : networkAssociation ssidCap passCap SSID PASSWORD penv.wifi
    with ⟨steps, r⟩
  rw [hna] at hassoc
  simp only at hassoc
  subst hassoc
  have hrun : runLoop (env :: rest) true = ((loopIter true env).1, some e) := by
    simp [runLoop, loopIter, hip]
  simp [async_main, hper, hsys, hnvs, htmr, hnew, hwrap, hna, hsntp, henvs, hrun]

/-- Witness for C8: concrete run whose first reporting iteration has a
failing IP query; `async_main` terminates with the query's error. -/
theorem ip_query_failure_fatal_witness :
    iterEnvIpErr.ipInfo = .error (Err.esp 263) ∧
    (networkAssociation SSID_CAP PASSWORD_CAP SSID PASSWORD
       (programEnvWith wifiAllOk [iterEnvIpErr]).wifi).2 = none ∧
    ((loopIter true iterEnvIpErr).2 = some (Err.esp 263) ∧
     runLoop (iterEnvIpErr :: []) true =
       ((loopIter true iterEnvIpErr).1, some (Err.esp 263)) ∧
     async_main SSID_CAP PASSWORD_CAP (programEnvWith wifiAllOk [iterEnvIpErr]) =
       some (Err.esp 263)) :=
  ⟨rfl, by decide,
   ip_query_failure_fatal true iterEnvIpErr (Err.esp 263) [] SSID_CAP
     PASSWORD_CAP (programEnvWith wifiAllOk [iterEnvIpErr]) rfl rfl rfl rfl
     rfl rfl rfl (by decide) rfl rfl⟩

/-- C10: the used-heap value is the unchecked 32-bit unsigned subtraction of
free from total: when free does not exceed total it equals the exact
difference, but when free exceeds total it wraps modulo 2^32 instead of the
(nonexistent) exact difference, and `print_memory_info` reports no error in
either case — it always emits exactly its four log events. -/
theorem used_heap_unchecked_sub (total free : Nat)
    (htot : total < u32Mod) (hfree : free < u32Mod) :
    (free ≤ total → u32Sub total free = total - free) ∧
    (total < free → u32Sub total free = u32Mod - (free - total)) ∧
    ∀ h : HeapSnapshot, (print_memory_info h).length = 4 := by
  unfold u32Mod at htot hfree
  refine ⟨?_, ?_, fun h => by simp [print_memory_info]⟩ <;>
    · intro hcmp
      unfold u32Sub u32Mod
      omega

/-- Witness for C10: 200 - 100 computes exactly; 100 - 200 wraps to
2^32 - 100; the snapshot report always has four entries. -/
theorem used_heap_unchecked_sub_witness :
    (200 : Nat) < u32Mod ∧ (100 : Nat) < u32Mod ∧
    u32Sub 200 100 = 200 - 100 ∧
    u32Sub 100 200 = u32Mod - (200 - 100) ∧
    (print_memory_info heapSample).length = 4 :=
  ⟨by decide, by decide,
   (used_heap_unchecked_sub 200 100 (by decide) (by decide)).1 (by decide),
   (used_heap_unchecked_sub 100 200 (by decide) (by decide)).2.1 (by decide),
   (used_heap_unchecked_sub 100 200 (by decide) (by decide)).2.2 heapSample⟩
